import Mathlib

/-!
Verification of the session-lifecycle core of `src/common/transport/src/session.rs`.

The Rust module manages a process-wide registry of attested transport sessions:
a lock-free atomic `u32` counter (`SESSION_COUNTER`) allocates session ids, a
mutex-guarded `HashMap` (`SESSIONS`) maps ids to sessions, two establishment
flows (`Session::from_url` for the initiator, `Session::from_socket` for the
responder) create sessions, and `set_encryption_mode` / `send_message` /
`receive_message` operate on registered sessions.

The embedding is a shallow one: stateful Rust code becomes explicit state
passing over `SessState` (registry map plus counter), and every external
collaborator (TCP connect, the Veraison attestation service, the TLS
configuration providers, the mbedtls handshake, the PARSEC keystore client,
and the two message codecs) is an oracle carried in an environment record, so
that each possible outcome of the external world corresponds to one choice of
environment.  Machine integers are `Nat` with explicit `% 2 ^ 32` where the
`u32` counter can wrap.  `anyhow` errors are modelled by the inductive `Err`,
one constructor per distinct error source in the module; errors propagated
from an external call keep their message as a `String` payload.
-/

namespace DpuSession

/-- Abstract handle for a connected `TcpStream` (socket identity). -/
abbrev Stream := Nat

/-- Opaque TLS configuration object (`mbedtls::ssl::Config`), as produced by
`tls_server::generate_tls_server_config` / `tls_client::generate_tls_client_config`. -/
abbrev TlsConfig := Nat

/-- Opaque PSA hardware key handle (`mbedtls_sys::psa::key_handle_t`). -/
abbrev KeyHandle := Nat

/-- Opaque PARSEC `BasicClient` handle. -/
abbrev ParsecClient := Nat

/-- The fixed 3-element attestation-evidence type list (`[u16; 3]`) returned by
the attester-side configuration provider. -/
structure AttestationTypeList where
  t0 : Nat
  t1 : Nat
  t2 : Nat
deriving DecidableEq, Repr

/-- Source: `pub type SessionId = u32;` modelled as `Nat`, kept below `2 ^ 32` by the
allocator's wrapping arithmetic. -/
abbrev SessionId := Nat

/-- Model of `mbedtls::ssl::Context<TcpStream>`: it is created from a
configuration with no attached I/O; a successful `establish(socket, None)`
attaches the socket, which `io_mut()` then returns. -/
structure TlsContext where
  config : TlsConfig
  /-- The attached underlying stream; `io_mut()` returns this. -/
  io : Option Stream
deriving DecidableEq, Repr

/-- Source: `Context::new(Arc::new(config))`: fresh context, no I/O attached yet. -/
def TlsContext.new (config : TlsConfig) : TlsContext :=
  { config := config, io := none }

/-- Source: `#[cfg(feature = "responder")] pub struct ResponderContext` from the source:
the hardware key handle and the client attestation type list kept alive for the
session's lifetime. -/
structure ResponderContext where
  key_handle : KeyHandle
  client_attestation_type_list : AttestationTypeList
deriving DecidableEq, Repr

/-- Source: `pub enum EncryptionMode { Tls, Plaintext }` from the source (the spec
calls `Tls` "Encrypted"). -/
inductive EncryptionMode where
  | Tls
  | Plaintext
deriving DecidableEq, Repr

/-- Source: `pub struct Session` from the source: the TLS context, the mutable
encryption mode, and the responder-only optional context (`None` on
initiator-created sessions). -/
structure Session where
  tls_context : TlsContext
  encryption_mode : EncryptionMode
  responder_context : Option ResponderContext
deriving DecidableEq, Repr

/-- Error values of the module.  The source uses `anyhow!` strings; each
constructor corresponds to one distinct error source in `session.rs`, with
errors propagated by `?` from an external call keeping that call's message. -/
inductive Err where
  /-- Source: `anyhow!("Could not connect to responder on {}: {}", url, e)` -/
  | connectionError (url : String) (cause : String)
  /-- Source: `anyhow!("Could not lock session hash table")` / `.. session table` -/
  | lockError
  /-- Source: `anyhow!("Session does not exist")` -/
  | sessionNotFound
  /-- Source: `anyhow!("Context has no valid I/O")` -/
  | noValidIo
  /-- error propagated by `?` from `generate_tls_server_config` /
  `generate_tls_client_config` -/
  | configError (cause : String)
  /-- error propagated by `?` from `tls_context.establish(socket, None)` -/
  | handshakeError (cause : String)
  /-- error propagated by `?` from `BasicClient::new_naked`,
  `set_default_auth` or `set_default_provider` -/
  | parsecClientError (cause : String)
  /-- error propagated from the message codecs `tls::send_message`,
  `tcp::send_message`, `tls::receive_message`, `tcp::receive_message` -/
  | codecError (cause : String)
deriving DecidableEq, Repr

/-- The process-wide mutable state: the `SESSIONS` hashmap and the
`SESSION_COUNTER` atomic.  The hashmap is modelled as a total function to
`Option Session`; `insert` overwrites the entry pointwise, exactly like
`HashMap::insert`. -/
structure SessState where
  sessions : SessionId → Option Session
  counter : Nat

/-- The initial state: empty hashmap, `AtomicU32::new(0)`. -/
def initState : SessState :=
  { sessions := fun _ => none, counter := 0 }

/-- Source: `HashMap::insert(id, session)`: silently overwrites an existing entry. -/
def SessState.insert (s : SessState) (id : SessionId) (sess : Session) :
    SessState :=
  { s with sessions := fun k => if k = id then some sess else s.sessions k }

/-- Source: `SESSION_COUNTER.fetch_add(1, Ordering::SeqCst)`: returns the old value
and stores the incremented value with `u32` wrapping arithmetic. -/
def SessState.fetchAdd (s : SessState) : SessionId × SessState :=
  (s.counter, { s with counter := (s.counter + 1) % 2 ^ 32 })

/-- Environment of external collaborators for `Session::from_url` (initiator).
Each field fixes the outcome of one external call; `lockOk` is whether
`SESSIONS.lock()` succeeds (it fails only when the mutex is poisoned). -/
structure InitiatorEnv where
  /-- Source: `TcpStream::connect(responder_url)` -/
  connect : String → Except String Stream
  /-- Source: `tls_server::init_veraison_session(endpoint, parameter)`.  Modelled from
  the spec: the callee lives in the `tls_server` module, outside this file's
  source; per the spec it is a fire-and-forget initialization call that can
  fail to be started, so it is given a fallible result type here.  The call
  site in `session.rs` is taken from the source: the result is discarded. -/
  init_veraison_session : String → Nat → Except String Unit
  /-- Source: `tls_server::generate_tls_server_config()` -/
  generate_tls_server_config : Except String TlsConfig
  /-- Source: `tls_context.establish(socket, None)` for the given config and socket -/
  establish : TlsConfig → Stream → Except String Unit
  /-- whether `SESSIONS.lock()` succeeds -/
  lockOk : Bool

/-- Source: `Session::from_url(responder_url)`, the initiator establishment flow:
connect, fire-and-forget Veraison init (result discarded), generate the TLS
server (relying-party) configuration, build the context, perform the
handshake, then allocate an id and insert the session.  Returns the result
together with the updated global state. -/
def from_url (env : InitiatorEnv) (responder_url : String) (s : SessState) :
    Except Err SessionId × SessState :=
  match env.connect responder_url with
  | .error e => (.error (.connectionError responder_url e), s)
  | .ok socket =>
    -- `tls_server::init_veraison_session("http://vfe:8080", 8);`
    -- no `?`: the outcome is discarded and the flow continues.
    let _ := env.init_veraison_session "http://vfe:8080" 8
    match env.generate_tls_server_config with
    | .error e => (.error (.configError e), s)
    | .ok config =>
      let tls_context := TlsContext.new config
      match env.establish config socket with
      | .error e => (.error (.handshakeError e), s)
      | .ok () =>
        let tls_context := { tls_context with io := some socket }
        let (session_id, s) := s.fetchAdd
        if env.lockOk then
          (.ok session_id,
            s.insert session_id
              { tls_context := tls_context
                encryption_mode := .Tls
                responder_context := none })
        else
          (.error .lockError, s)

/-- Environment of external collaborators for `Session::from_socket`
(responder). -/
structure ResponderEnv where
  /-- Source: `tls_client::generate_tls_client_config()`: the configuration together
  with the hardware key handle and the `[u16; 3]` attestation type list -/
  generate_tls_client_config :
    Except String (TlsConfig × KeyHandle × AttestationTypeList)
  /-- Source: `tls_context.establish(socket, None)` for the given config and socket -/
  establish : TlsConfig → Stream → Except String Unit
  /-- Source: `BasicClient::new_naked()` -/
  new_naked : Except String ParsecClient
  /-- Source: `client.set_default_auth(Some("Parsec SE Driver"))` -/
  set_default_auth : ParsecClient → String → Except String Unit
  /-- Source: `client.set_default_provider()` -/
  set_default_provider : ParsecClient → Except String Unit
  /-- Source: `client.psa_destroy_key(name)`; the call site discards the result
  (`let _ = ...`). -/
  psa_destroy_key : ParsecClient → String → Except String Unit
  /-- whether `SESSIONS.lock()` succeeds -/
  lockOk : Bool

/-- Source: `Session::from_socket(socket)`, the responder establishment flow:
generate the TLS client (attester) configuration together with the key handle
and attestation type list, build the context, perform the handshake, set up a
PARSEC client and best-effort destroy the well-known secure-element key
(result discarded), then allocate an id and insert the session. -/
def from_socket (env : ResponderEnv) (socket : Stream) (s : SessState) :
    Except Err SessionId × SessState :=
  match env.generate_tls_client_config with
  | .error e => (.error (.configError e), s)
  | .ok (config, key_handle, client_attestation_type_list) =>
    let tls_context := TlsContext.new config
    match env.establish config socket with
    | .error e => (.error (.handshakeError e), s)
    | .ok () =>
      let tls_context := { tls_context with io := some socket }
      match env.new_naked with
      | .error e => (.error (.parsecClientError e), s)
      | .ok client =>
        match env.set_default_auth client "Parsec SE Driver" with
        | .error e => (.error (.parsecClientError e), s)
        | .ok () =>
          match env.set_default_provider client with
          | .error e => (.error (.parsecClientError e), s)
          | .ok () =>
            -- `let _ = client.psa_destroy_key("parsec-se-driver-key48879");`
            let _ := env.psa_destroy_key client "parsec-se-driver-key48879"
            let (session_id, s) := s.fetchAdd
            if env.lockOk then
              (.ok session_id,
                s.insert session_id
                  { tls_context := tls_context
                    encryption_mode := .Tls
                    responder_context := some
                      { key_handle := key_handle
                        client_attestation_type_list :=
                          client_attestation_type_list } })
            else
              (.error .lockError, s)

/-- Source: `Session::set_encryption_mode(session_id, encryption_mode)`: lock the
table, look the session up, overwrite its `encryption_mode` field. `lockOk`
is whether `SESSIONS.lock()` succeeds. -/
def set_encryption_mode (lockOk : Bool) (session_id : SessionId)
    (encryption_mode : EncryptionMode) (s : SessState) :
    Except Err Unit × SessState :=
  if lockOk then
    match s.sessions session_id with
    | none => (.error .sessionNotFound, s)
    | some sess =>
      (.ok (),
        { s with sessions := fun k =>
            if k = session_id then
              some { sess with encryption_mode := encryption_mode }
            else s.sessions k })
  else
    (.error .lockError, s)

/-- Observable record of which external codec `send_message` delegated to,
and with which arguments. -/
inductive SendCall (α : Type) where
  /-- no codec was invoked (lookup or lock failed, or no valid I/O) -/
  | none
  /-- Source: `tls::send_message(&mut s.tls_context, data)` -/
  | tls (ctx : TlsContext) (data : α)
  /-- Source: `tcp::send_message(io, data)` on the raw stream from `io_mut()` -/
  | tcp (io : Stream) (data : α)
deriving DecidableEq

/-- Observable record of which external codec `receive_message` delegated
to, and with which arguments. -/
inductive ReceiveCall where
  /-- no codec was invoked (lookup or lock failed, or no valid I/O) -/
  | none
  /-- Source: `tls::receive_message(&mut s.tls_context)` -/
  | tls (ctx : TlsContext)
  /-- Source: `tcp::receive_message(io)` on the raw stream from `io_mut()` -/
  | tcp (io : Stream)
deriving DecidableEq

/-- Environment of message codecs for `send_message` / `receive_message`,
generic over the payload type (the Rust functions are generic over a
`Serialize`/`DeserializeOwned` type `T`). -/
structure CodecEnv (α : Type) where
  /-- Source: `tls::send_message(&mut ctx, data)` -/
  tlsSend : TlsContext → α → Except String Unit
  /-- Source: `tcp::send_message(io, data)` -/
  tcpSend : Stream → α → Except String Unit
  /-- Source: `tls::receive_message(&mut ctx)` -/
  tlsReceive : TlsContext → Except String α
  /-- Source: `tcp::receive_message(io)` -/
  tcpReceive : Stream → Except String α
  /-- whether `SESSIONS.lock()` succeeds -/
  lockOk : Bool

/-- Source: `Session::send_message(session_id, data)`: lock the table, look the
session up, and dispatch on its current encryption mode — `Tls` delegates to
the secure-channel codec on the session's TLS context, `Plaintext` extracts
the raw stream via `io_mut()` (failing with "Context has no valid I/O" when
absent) and delegates to the raw-stream codec.  Besides the result, the
delegation performed is returned as a `SendCall`; the registry state is not
modified. -/
def send_message {α : Type} (env : CodecEnv α) (session_id : SessionId)
    (data : α) (s : SessState) : Except Err Unit × SendCall α :=
  if env.lockOk then
    match s.sessions session_id with
    | none => (.error .sessionNotFound, .none)
    | some sess =>
      match sess.encryption_mode with
      | .Tls =>
        ((env.tlsSend sess.tls_context data).mapError .codecError,
          .tls sess.tls_context data)
      | .Plaintext =>
        match sess.tls_context.io with
        | none => (.error .noValidIo, .none)
        | some io =>
          ((env.tcpSend io data).mapError .codecError, .tcp io data)
  else
    (.error .lockError, .none)

/-- Source: `Session::receive_message(session_id)`: lock the table, look the session
up, and dispatch on its current encryption mode exactly as `send_message`
does.  Besides the result, the delegation performed is returned as a
`ReceiveCall`; the registry state is not modified. -/
def receive_message {α : Type} (env : CodecEnv α) (session_id : SessionId)
    (s : SessState) : Except Err α × ReceiveCall :=
  if env.lockOk then
    match s.sessions session_id with
    | none => (.error .sessionNotFound, .none)
    | some sess =>
      match sess.encryption_mode with
      | .Tls =>
        ((env.tlsReceive sess.tls_context).mapError .codecError,
          .tls sess.tls_context)
      | .Plaintext =>
        match sess.tls_context.io with
        | none => (.error .noValidIo, .none)
        | some io =>
          ((env.tcpReceive io).mapError .codecError, .tcp io)
  else
    (.error .lockError, .none)

/-! ## Concrete environments and states used by witnesses and counterexamples -/

/-- An initiator environment in which every external call succeeds. -/
def okInitiatorEnv : InitiatorEnv :=
  { connect := fun _ => .ok 7
    init_veraison_session := fun _ _ => .ok ()
    generate_tls_server_config := .ok 3
    establish := fun _ _ => .ok ()
    lockOk := true }

/-- A responder environment in which every external call succeeds except the
best-effort secure-element key deletion, which fails (key absent). -/
def okResponderEnv : ResponderEnv :=
  { generate_tls_client_config := .ok (5, 11, ⟨1, 2, 3⟩)
    establish := fun _ _ => .ok ()
    new_naked := .ok 9
    set_default_auth := fun _ _ => .ok ()
    set_default_provider := fun _ => .ok ()
    psa_destroy_key := fun _ _ => .error "PSA_ERROR_DOES_NOT_EXIST"
    lockOk := true }

/-- An initiator environment whose Veraison initialization call fails. -/
def veraisonFailEnv : InitiatorEnv :=
  { okInitiatorEnv with
      init_veraison_session := fun _ _ => .error "veraison unreachable" }

/-- A responder environment whose handshake succeeds but whose PARSEC
client construction fails. -/
def parsecFailEnv : ResponderEnv :=
  { okResponderEnv with new_naked := .error "no parsec service" }

/-! ## C1 -/

/-- C1: the claim says that when the attestation-service initialization cannot
be started, `Session::from_url` fails with an attestation-initialization error
instead of continuing to the handshake.  Counterexample: in an execution where
the Veraison initialization call fails but every other collaborator succeeds,
`from_url` still returns a session id — the initialization outcome is
discarded and the flow continues to the handshake. -/
theorem c1_counterexample :
    veraisonFailEnv.init_veraison_session "http://vfe:8080" 8 =
      .error "veraison unreachable" ∧
    (from_url veraisonFailEnv "responder:4433" initState).1 = .ok 0 :=
  ⟨rfl, rfl⟩

/-- C1 (amended): the Veraison initialization call in `Session::from_url` is
fire-and-forget — its outcome is discarded, so the whole flow (result and
resulting registry state) is identical no matter what the initialization call
returns; in particular an initialization failure never makes `from_url`
return an error. -/
theorem c1_amended (env : InitiatorEnv)
    (f : String → Nat → Except String Unit) (url : String) (s : SessState) :
    from_url { env with init_veraison_session := f } url s =
      from_url env url s :=
  rfl

/-! ## C2 -/

/-- C2: the claim says that after a successful handshake in
`Session::from_socket`, every failure of the secure-element key-cleanup step
is discarded and the flow always returns a session id.  Counterexample: in an
execution where the handshake succeeds but the PARSEC client construction
(`BasicClient::new_naked`, part of the key-cleanup step at lines 129–136)
fails, `from_socket` propagates that failure and returns an error, not a
session id. -/
theorem c2_counterexample :
    parsecFailEnv.establish 5 7 = .ok () ∧
    (from_socket parsecFailEnv 7 initState).1 =
      .error (.parsecClientError "no parsec service") :=
  ⟨rfl, rfl⟩

/-- C2 (amended): only the key-deletion call itself (`psa_destroy_key`) is
best-effort — its outcome is discarded.  Whenever the handshake and the
PARSEC-client setup steps (`new_naked`, `set_default_auth`,
`set_default_provider`) succeed and the registry lock is acquired,
`from_socket` returns a session id regardless of the key-deletion outcome
(the environment's `psa_destroy_key` is unconstrained); failures of the
setup steps themselves, however, are propagated. -/
theorem c2_amended (env : ResponderEnv) (socket : Stream) (s : SessState)
    (cfg : TlsConfig) (kh : KeyHandle) (al : AttestationTypeList)
    (client : ParsecClient)
    (hcfg : env.generate_tls_client_config = .ok (cfg, kh, al))
    (hest : env.establish cfg socket = .ok ())
    (hnew : env.new_naked = .ok client)
    (hauth : env.set_default_auth client "Parsec SE Driver" = .ok ())
    (hprov : env.set_default_provider client = .ok ())
    (hlock : env.lockOk = true) :
    (from_socket env socket s).1 = .ok s.counter := by
  simp [from_socket, hcfg, hest, hnew, hauth, hprov, hlock, SessState.fetchAdd]

/-- Witness for C2 (amended): concrete execution in which the key deletion
fails (`okResponderEnv.psa_destroy_key` returns an error) yet establishment
succeeds and returns id 0. -/
theorem c2_amended_witness :
    (from_socket okResponderEnv 7 initState).1 = .ok 0 :=
  c2_amended okResponderEnv 7 initState 5 11 ⟨1, 2, 3⟩ 9
    rfl rfl rfl rfl rfl rfl

/-! ## C3 -/

/-- C3: establishment is atomic with respect to the registry — whenever
`Session::from_url` or `Session::from_socket` returns an error (connection,
attestation-unrelated config generation, handshake, PARSEC-client or lock
failure), the session registry afterwards is exactly what it was before, so
no entry for the would-be session exists. -/
theorem c3_registry_atomicity :
    (∀ (env : InitiatorEnv) (url : String) (s : SessState) (e : Err),
      (from_url env url s).1 = .error e →
      ((from_url env url s).2).sessions = s.sessions) ∧
    (∀ (env : ResponderEnv) (socket : Stream) (s : SessState) (e : Err),
      (from_socket env socket s).1 = .error e →
      ((from_socket env socket s).2).sessions = s.sessions) := by
  constructor
  · intro env url s e h
    unfold from_url at h ⊢
    cases hc : env.connect url with
    | error e' => simp [hc]
    | ok sock =>
      cases hg : env.generate_tls_server_config with
      | error e' => simp [hc, hg]
      | ok cfg =>
        cases he : env.establish cfg sock with
        | error e' => simp [hc, hg, he]
        | ok u =>
          cases hl : env.lockOk with
          | true => simp [hc, hg, he, hl, SessState.fetchAdd] at h
          | false => simp [hc, hg, he, hl, SessState.fetchAdd]
  · intro env socket s e h
    unfold from_socket at h ⊢
    cases hg : env.generate_tls_client_config with
    | error e' => simp [hg]
    | ok triple =>
      obtain ⟨cfg, kh, al⟩ := triple
      cases he : env.establish cfg socket with
      | error e' => simp [hg, he]
      | ok u =>
        cases hn : env.new_naked with
        | error e' => simp [hg, he, hn]
        | ok client =>
          cases ha : env.set_default_auth client "Parsec SE Driver" with
          | error e' => simp [hg, he, hn, ha]
          | ok v =>
            cases hp : env.set_default_provider client with
            | error e' => simp [hg, he, hn, ha, hp]
            | ok w =>
              cases hl : env.lockOk with
              | true =>
                simp [hg, he, hn, ha, hp, hl, SessState.fetchAdd] at h
              | false => simp [hg, he, hn, ha, hp, hl, SessState.fetchAdd]

/-- Witness for C3: a concrete failed establishment (connection refused)
leaves the registry of the initial state unchanged. -/
theorem c3_witness :
    ((from_url { okInitiatorEnv with connect := fun _ => .error "refused" }
        "responder:4433" initState).2).sessions = initState.sessions :=
  c3_registry_atomicity.1
    { okInitiatorEnv with connect := fun _ => .error "refused" }
    "responder:4433" initState (.connectionError "responder:4433" "refused")
    rfl

/-! ## C4 -/

/-- A concrete registered session in `Tls` mode with an attached stream. -/
def sampleTlsSession : Session :=
  { tls_context := { config := 3, io := some 7 }
    encryption_mode := .Tls
    responder_context := none }

/-- A concrete registry state holding `sampleTlsSession` under id 0. -/
def sampleState : SessState :=
  { sessions := fun k => if k = 0 then some sampleTlsSession else none
    counter := 1 }

/-- A concrete codec environment over `Nat` payloads whose calls succeed. -/
def natCodecEnv : CodecEnv Nat :=
  { tlsSend := fun _ _ => .ok ()
    tcpSend := fun _ _ => .ok ()
    tlsReceive := fun _ => .ok 42
    tcpReceive := fun _ => .ok 43
    lockOk := true }

/-- C4: for every registered session id, `send_message` and `receive_message`
dispatch on the session's current encryption mode as read under the registry
lock — in `Tls` (Encrypted) mode they delegate to the secure-channel codec on
the session's TLS context (result and delegation record shown), and in
`Plaintext` mode they extract the raw underlying stream from the context
(`io_mut()`) and delegate to the raw-stream codec. -/
theorem c4_mode_dispatch {α : Type} (env : CodecEnv α) (s : SessState)
    (id : SessionId) (data : α) (sess : Session)
    (hlock : env.lockOk = true) (hs : s.sessions id = some sess) :
    (sess.encryption_mode = .Tls →
      send_message env id data s =
        ((env.tlsSend sess.tls_context data).mapError .codecError,
          .tls sess.tls_context data) ∧
      receive_message env id s =
        ((env.tlsReceive sess.tls_context).mapError .codecError,
          .tls sess.tls_context)) ∧
    (∀ io, sess.encryption_mode = .Plaintext → sess.tls_context.io = some io →
      send_message env id data s =
        ((env.tcpSend io data).mapError .codecError, .tcp io data) ∧
      receive_message env id s =
        ((env.tcpReceive io).mapError .codecError, .tcp io)) := by
  constructor
  · intro hmode
    constructor <;> simp [send_message, receive_message, hlock, hs, hmode]
  · intro io hmode hio
    constructor <;> simp [send_message, receive_message, hlock, hs, hmode, hio]

/-- Witness for C4: on the concrete state, sending payload 5 over the `Tls`
session 0 delegates to the secure-channel codec bound to its context. -/
theorem c4_witness :
    send_message natCodecEnv 0 (5 : Nat) sampleState =
      (.ok (), .tls { config := 3, io := some 7 } 5) ∧
    receive_message natCodecEnv 0 sampleState =
      (.ok 42, .tls { config := 3, io := some 7 }) :=
  (c4_mode_dispatch natCodecEnv sampleState 0 5 sampleTlsSession
    rfl rfl).1 rfl

/-! ## C5 -/

/-- C5: `Session::set_encryption_mode` on an id absent from the registry
returns the session-not-found error and leaves the state unchanged; on a
registered id it succeeds and the stored encryption mode afterwards equals
the requested mode (so subsequent send/receive, which dispatch on the stored
mode, observe it).  Lock acquisition is assumed to succeed. -/
theorem c5_set_mode (id : SessionId) (mode : EncryptionMode) (s : SessState) :
    (s.sessions id = none →
      set_encryption_mode true id mode s = (.error .sessionNotFound, s)) ∧
    (∀ sess, s.sessions id = some sess →
      (set_encryption_mode true id mode s).1 = .ok () ∧
      ((set_encryption_mode true id mode s).2).sessions id =
        some { sess with encryption_mode := mode }) := by
  constructor
  · intro hnone
    simp [set_encryption_mode, hnone]
  · intro sess hsess
    simp [set_encryption_mode, hsess]

/-- Witness for C5: on the concrete state, id 1 is unknown and rejected,
while id 0 is switched to `Plaintext` and stores the new mode. -/
theorem c5_witness :
    (set_encryption_mode true 1 .Plaintext sampleState =
      (.error .sessionNotFound, sampleState)) ∧
    ((set_encryption_mode true 0 .Plaintext sampleState).1 = .ok () ∧
      ((set_encryption_mode true 0 .Plaintext sampleState).2).sessions 0 =
        some { sampleTlsSession with encryption_mode := .Plaintext }) :=
  ⟨(c5_set_mode 1 .Plaintext sampleState).1 rfl,
    (c5_set_mode 0 .Plaintext sampleState).2 sampleTlsSession rfl⟩

/-! ## Characterization of successful establishments (shared helpers) -/

/-- Helper: a successful `from_url` run returns the pre-increment counter as
its id, bumps the counter with wrapping, and inserts the session built from
its collaborators' outputs (mode `Tls`, no responder context). -/
theorem from_url_ok (env : InitiatorEnv) (url : String) (s : SessState)
    (id : SessionId) (h : (from_url env url s).1 = .ok id) :
    id = s.counter ∧ env.lockOk = true ∧
    ∃ sock cfg, env.connect url = .ok sock ∧
      env.generate_tls_server_config = .ok cfg ∧
      env.establish cfg sock = .ok () ∧
      (from_url env url s).2 =
        SessState.insert { s with counter := (s.counter + 1) % 2 ^ 32 }
          s.counter
          { tls_context := { config := cfg, io := some sock }
            encryption_mode := .Tls
            responder_context := none } := by
  cases hc : env.connect url with
  | error e => simp [from_url, hc] at h
  | ok sock =>
    cases hg : env.generate_tls_server_config with
    | error e => simp [from_url, hc, hg] at h
    | ok cfg =>
      cases he : env.establish cfg sock with
      | error e => simp [from_url, hc, hg, he] at h
      | ok u =>
        cases u
        cases hl : env.lockOk with
        | false => simp [from_url, hc, hg, he, hl, SessState.fetchAdd] at h
        | true =>
          simp [from_url, hc, hg, he, hl, SessState.fetchAdd] at h
          refine ⟨by simp [h], rfl, sock, cfg, rfl, rfl, he, ?_⟩
          simp [from_url, hc, hg, he, hl, SessState.fetchAdd, TlsContext.new]

/-- Helper: a successful `from_socket` run returns the pre-increment counter
as its id, bumps the counter with wrapping, and inserts the session built
from its collaborators' outputs (mode `Tls`, responder context holding the
key handle and the attestation type list). -/
theorem from_socket_ok (env : ResponderEnv) (socket : Stream) (s : SessState)
    (id : SessionId) (h : (from_socket env socket s).1 = .ok id) :
    id = s.counter ∧ env.lockOk = true ∧
    ∃ cfg kh al client, env.generate_tls_client_config = .ok (cfg, kh, al) ∧
      env.establish cfg socket = .ok () ∧
      env.new_naked = .ok client ∧
      (from_socket env socket s).2 =
        SessState.insert { s with counter := (s.counter + 1) % 2 ^ 32 }
          s.counter
          { tls_context := { config := cfg, io := some socket }
            encryption_mode := .Tls
            responder_context := some
              { key_handle := kh, client_attestation_type_list := al } } := by
  cases hg : env.generate_tls_client_config with
  | error e => simp [from_socket, hg] at h
  | ok triple =>
    obtain ⟨cfg, kh, al⟩ := triple
    cases he : env.establish cfg socket with
    | error e => simp [from_socket, hg, he] at h
    | ok u =>
      cases u
      cases hn : env.new_naked with
      | error e => simp [from_socket, hg, he, hn] at h
      | ok client =>
        cases ha : env.set_default_auth client "Parsec SE Driver" with
        | error e => simp [from_socket, hg, he, hn, ha] at h
        | ok v =>
          cases v
          cases hp : env.set_default_provider client with
          | error e => simp [from_socket, hg, he, hn, ha, hp] at h
          | ok w =>
            cases w
            cases hl : env.lockOk with
            | false =>
              simp [from_socket, hg, he, hn, ha, hp, hl,
                SessState.fetchAdd] at h
            | true =>
              simp [from_socket, hg, he, hn, ha, hp, hl,
                SessState.fetchAdd] at h
              refine ⟨by simp [h], rfl, cfg, kh, al, client, rfl, he, rfl, ?_⟩
              simp [from_socket, hg, he, hn, ha, hp, hl, SessState.fetchAdd,
                TlsContext.new]

/-! ## C6 -/

/-- C6: every session inserted by a successful establishment has encryption
mode `Tls` (Encrypted) at insertion time; an initiator-created session
carries no responder context, and a responder-created session carries a
responder context made of the hardware key handle and the 3-element
attestation-evidence type list produced by the attester-side configuration
provider. -/
theorem c6_insertion_invariants :
    (∀ (env : InitiatorEnv) (url : String) (s : SessState) (id : SessionId),
      (from_url env url s).1 = .ok id →
      ∃ sess, ((from_url env url s).2).sessions id = some sess ∧
        sess.encryption_mode = .Tls ∧ sess.responder_context = none) ∧
    (∀ (env : ResponderEnv) (socket : Stream) (s : SessState)
      (id : SessionId) (cfg : TlsConfig) (kh : KeyHandle)
      (al : AttestationTypeList),
      env.generate_tls_client_config = .ok (cfg, kh, al) →
      (from_socket env socket s).1 = .ok id →
      ∃ sess, ((from_socket env socket s).2).sessions id = some sess ∧
        sess.encryption_mode = .Tls ∧
        sess.responder_context = some
          { key_handle := kh, client_attestation_type_list := al }) := by
  constructor
  · intro env url s id h
    obtain ⟨hid, -, sock, cfg, -, -, -, hstate⟩ := from_url_ok env url s id h
    subst hid
    refine ⟨{ tls_context := { config := cfg, io := some sock }
              encryption_mode := .Tls
              responder_context := none }, ?_, rfl, rfl⟩
    simp [hstate, SessState.insert]
  · intro env socket s id cfg kh al hcfg h
    obtain ⟨hid, -, cfg', kh', al', client, hcfg', -, -, hstate⟩ :=
      from_socket_ok env socket s id h
    rw [hcfg] at hcfg'
    injection hcfg' with hx
    injection hx with hc1 hx'
    injection hx' with hc2 hc3
    subst hid hc1 hc2 hc3
    refine ⟨{ tls_context := { config := cfg, io := some socket }
              encryption_mode := .Tls
              responder_context := some
                { key_handle := kh, client_attestation_type_list := al } },
      ?_, rfl, rfl⟩
    simp [hstate, SessState.insert]

/-- Witness for C6: the concrete successful responder establishment from the
initial state registers session 0 with mode `Tls` and the responder context
produced by the configuration provider. -/
theorem c6_witness :
    ∃ sess, ((from_socket okResponderEnv 7 initState).2).sessions 0 =
        some sess ∧
      sess.encryption_mode = .Tls ∧
      sess.responder_context = some
        { key_handle := 11, client_attestation_type_list := ⟨1, 2, 3⟩ } :=
  c6_insertion_invariants.2 okResponderEnv 7 initState 0 5 11 ⟨1, 2, 3⟩
    rfl rfl

/-! ## C7 -/

/-- An invocation of either establishment flow, with its environment and
inputs: the initiator variant runs `Session::from_url`, the responder
variant runs `Session::from_socket`.  Both allocate ids from the same
`SESSION_COUNTER`. -/
inductive EstablishCall where
  | initiator (env : InitiatorEnv) (url : String)
  | responder (env : ResponderEnv) (socket : Stream)

/-- Run an establishment invocation on the global state. -/
def EstablishCall.run : EstablishCall → SessState →
    Except Err SessionId × SessState
  | .initiator env url, s => from_url env url s
  | .responder env socket, s => from_socket env socket s

/-- Helper: every successful establishment, of either role, returns the
pre-increment counter as its id and leaves the counter at its wrapped
successor. -/
theorem EstablishCall.run_ok (c : EstablishCall) (s : SessState)
    (id : SessionId) (h : (c.run s).1 = .ok id) :
    id = s.counter ∧ ((c.run s).2).counter = (s.counter + 1) % 2 ^ 32 := by
  cases c with
  | initiator env url =>
    obtain ⟨hid, -, sock, cfg, -, -, -, hstate⟩ := from_url_ok env url s id h
    exact ⟨hid, by simp [EstablishCall.run, hstate, SessState.insert]⟩
  | responder env socket =>
    obtain ⟨hid, -, cfg, kh, al, client, -, -, -, hstate⟩ :=
      from_socket_ok env socket s id h
    exact ⟨hid, by simp [EstablishCall.run, hstate, SessState.insert]⟩

/-- C7: identifier allocation is monotonic across both establishment flows —
for every pair of successful establishments (initiator or responder, in any
combination) where the second runs on the state left by the first, and the
counter has not reached exhaustion, the second session id is strictly
greater than the first (indeed its successor). -/
theorem c7_monotonic_ids (c1 c2 : EstablishCall) (s : SessState)
    (id1 id2 : SessionId)
    (hwrap : s.counter + 1 < 2 ^ 32)
    (h1 : (c1.run s).1 = .ok id1)
    (h2 : (c2.run (c1.run s).2).1 = .ok id2) :
    id1 < id2 := by
  obtain ⟨hid1, hcnt⟩ := EstablishCall.run_ok c1 s id1 h1
  obtain ⟨hid2, -⟩ := EstablishCall.run_ok c2 _ id2 h2
  rw [hcnt] at hid2
  rw [Nat.mod_eq_of_lt hwrap] at hid2
  rw [hid1, hid2]
  exact Nat.lt_succ_self _

/-- Witness for C7: a successful initiator establishment followed by a
successful responder establishment from the initial state yields ids 0 then
1, strictly increasing. -/
theorem c7_witness :
    ((EstablishCall.initiator okInitiatorEnv "a:1").run initState).1 =
      .ok 0 ∧
    ((EstablishCall.responder okResponderEnv 7).run
      ((EstablishCall.initiator okInitiatorEnv "a:1").run initState).2).1 =
      .ok 1 ∧
    (0 : SessionId) < 1 :=
  ⟨rfl, rfl,
    c7_monotonic_ids (.initiator okInitiatorEnv "a:1")
      (.responder okResponderEnv 7) initState 0 1
      (by norm_num [initState]) rfl rfl⟩

/-! ## C8 -/

/-- A registry state whose counter has reached the last 32-bit value. -/
def exhaustedState : SessState :=
  { sessions := fun _ => none, counter := 2 ^ 32 - 1 }

/-- A registry state whose counter has wrapped back to 0 while an earlier
session is still registered under id 0. -/
def wrapState : SessState :=
  { sessions := fun k => if k = 0 then some sampleTlsSession else none
    counter := 0 }

/-- C8: session ids are 32-bit — the counter starts at 0, `fetch_add` returns
the old value and wraps modulo `2 ^ 32` (the allocation after id
`2 ^ 32 - 1` yields 0 and keeps ids below `2 ^ 32`), and a successful
establishment whose allocated id is already present in the registry silently
overwrites the existing entry with the newly built session. -/
theorem c8_wraparound :
    initState.counter = 0 ∧
    (∀ s : SessState, s.counter = 2 ^ 32 - 1 →
      s.fetchAdd.1 = 2 ^ 32 - 1 ∧ s.fetchAdd.2.counter = 0 ∧
        s.fetchAdd.2.fetchAdd.1 = 0) ∧
    (∀ s : SessState, s.counter < 2 ^ 32 →
      s.fetchAdd.1 < 2 ^ 32 ∧ s.fetchAdd.2.counter < 2 ^ 32) ∧
    (∀ (env : InitiatorEnv) (url : String) (s : SessState) (old : Session),
      s.sessions s.counter = some old →
      ∀ id, (from_url env url s).1 = .ok id →
        id = s.counter ∧
        ∃ sock cfg, env.connect url = .ok sock ∧
          env.generate_tls_server_config = .ok cfg ∧
          ((from_url env url s).2).sessions s.counter =
            some { tls_context := { config := cfg, io := some sock }
                   encryption_mode := .Tls
                   responder_context := none }) := by
  refine ⟨rfl, ?_, ?_, ?_⟩
  · intro s hs
    simp [SessState.fetchAdd, hs]
  · intro s hs
    refine ⟨?_, ?_⟩
    · simpa [SessState.fetchAdd] using hs
    · simp only [SessState.fetchAdd]
      exact Nat.mod_lt _ (by norm_num)
  · intro env url s old hold id h
    obtain ⟨hid, -, sock, cfg, hc, hg, -, hstate⟩ := from_url_ok env url s id h
    exact ⟨hid, sock, cfg, hc, hg, by simp [hstate, SessState.insert]⟩

/-- Witness for C8: at the exhausted counter the allocator wraps to 0, and a
successful establishment at a wrapped counter overwrites the session already
registered under id 0. -/
theorem c8_witness :
    (exhaustedState.fetchAdd.1 = 2 ^ 32 - 1 ∧
      exhaustedState.fetchAdd.2.counter = 0 ∧
      exhaustedState.fetchAdd.2.fetchAdd.1 = 0) ∧
    ((0 : SessionId) = wrapState.counter ∧
      ∃ sock cfg, okInitiatorEnv.connect "responder:4433" = .ok sock ∧
        okInitiatorEnv.generate_tls_server_config = .ok cfg ∧
        ((from_url okInitiatorEnv "responder:4433" wrapState).2).sessions
            wrapState.counter =
          some { tls_context := { config := cfg, io := some sock }
                 encryption_mode := .Tls
                 responder_context := none }) :=
  ⟨c8_wraparound.2.1 exhaustedState rfl,
    c8_wraparound.2.2.2 okInitiatorEnv "responder:4433" wrapState
      sampleTlsSession rfl 0 rfl⟩

/-! ## C9 -/

/-- A registered Plaintext-mode session whose TLS context holds no
underlying stream (`io_mut()` would return `None`). -/
def noIoSession : Session :=
  { tls_context := { config := 3, io := none }
    encryption_mode := .Plaintext
    responder_context := none }

/-- A concrete registry state holding `noIoSession` under id 0. -/
def noIoState : SessState :=
  { sessions := fun k => if k = 0 then some noIoSession else none
    counter := 1 }

/-- C9: for a registered Plaintext-mode session whose channel context holds
no underlying stream, `send_message` and `receive_message` return the
distinct "Context has no valid I/O" error, which differs from every
codec-propagated I/O or serialization error (and from the other error
kinds); no codec is invoked. -/
theorem c9_no_valid_io {α : Type} (env : CodecEnv α) (s : SessState)
    (id : SessionId) (data : α) (sess : Session)
    (hlock : env.lockOk = true) (hs : s.sessions id = some sess)
    (hmode : sess.encryption_mode = .Plaintext)
    (hio : sess.tls_context.io = none) :
    send_message env id data s = (.error .noValidIo, .none) ∧
    receive_message env id s = (.error .noValidIo, .none) ∧
    (∀ c, Err.noValidIo ≠ Err.codecError c) ∧
    Err.noValidIo ≠ Err.sessionNotFound ∧ Err.noValidIo ≠ Err.lockError := by
  refine ⟨?_, ?_, fun c => by simp, by simp, by simp⟩ <;>
    simp [send_message, receive_message, hlock, hs, hmode, hio]

/-- Witness for C9: on the concrete no-I/O Plaintext session, sending and
receiving both fail with the no-valid-I/O error. -/
theorem c9_witness :
    send_message natCodecEnv 0 (5 : Nat) noIoState =
      (.error .noValidIo, .none) ∧
    receive_message natCodecEnv 0 noIoState =
      ((.error .noValidIo : Except Err Nat), .none) :=
  ⟨(c9_no_valid_io natCodecEnv noIoState 0 5 noIoSession rfl rfl rfl rfl).1,
    (c9_no_valid_io natCodecEnv noIoState 0 5 noIoSession rfl rfl rfl
      rfl).2.1⟩

/-! ## C10 -/

/-- C10: `set_encryption_mode` is frame-preserving — on a registered id it
only changes that session's `encryption_mode` field: the session's TLS
context and responder context are unchanged, every other registry entry is
unchanged, and the counter is unchanged. -/
theorem c10_set_mode_frame (id : SessionId) (mode : EncryptionMode)
    (s : SessState) (sess : Session) (hs : s.sessions id = some sess) :
    (set_encryption_mode true id mode s).1 = .ok () ∧
    (∃ sess', ((set_encryption_mode true id mode s).2).sessions id =
        some sess' ∧
      sess'.encryption_mode = mode ∧
      sess'.tls_context = sess.tls_context ∧
      sess'.responder_context = sess.responder_context) ∧
    (∀ k, k ≠ id →
      ((set_encryption_mode true id mode s).2).sessions k = s.sessions k) ∧
    ((set_encryption_mode true id mode s).2).counter = s.counter := by
  refine ⟨?_, ⟨{ sess with encryption_mode := mode }, ?_, rfl, rfl, rfl⟩,
    ?_, ?_⟩
  · simp [set_encryption_mode, hs]
  · simp [set_encryption_mode, hs]
  · intro k hk
    simp [set_encryption_mode, hs, hk]
  · simp [set_encryption_mode, hs]

/-- Witness for C10: switching session 0 of the concrete state to
`Plaintext` leaves its TLS context, its responder context, the other entry
(id 1 was and stays absent) and the counter unchanged. -/
theorem c10_witness :
    (set_encryption_mode true 0 .Plaintext sampleState).1 = .ok () ∧
    (∃ sess', ((set_encryption_mode true 0 .Plaintext
        sampleState).2).sessions 0 = some sess' ∧
      sess'.encryption_mode = .Plaintext ∧
      sess'.tls_context = sampleTlsSession.tls_context ∧
      sess'.responder_context = sampleTlsSession.responder_context) ∧
    (∀ k, k ≠ 0 →
      ((set_encryption_mode true 0 .Plaintext sampleState).2).sessions k =
        sampleState.sessions k) ∧
    ((set_encryption_mode true 0 .Plaintext sampleState).2).counter =
      sampleState.counter :=
  c10_set_mode_frame 0 .Plaintext sampleState sampleTlsSession rfl

end DpuSession
